import Mathlib

/-!
Verification of `convert_models.py` from the `recognizer` repository.

The script exports three pretrained models to ONNX and writes a static JSON
configuration file.  We give a shallow embedding:

* placeholder tensors (`torch.rand`) are modelled as lists of rationals
  produced from an arbitrary stream of random bits, each element being a
  24-bit mantissa divided by `2 ^ 24` (the single-precision uniform sampler),
* the effectful pipeline (`convert_all` and the three `convert_*_model`
  functions plus `save_model_config`) is modelled as explicit state passing
  over a `World` record of written files, log lines and the written config,
  with an `Env` record telling which library calls raise an exception,
* the static configuration dictionary is the literal `modelConfig`.
-/

namespace ConvertModels

/-- One element drawn by `torch.rand`: a uniformly random 24-bit mantissa
divided by `2 ^ 24`, so the value lies in `[0, 1)` whatever the bit source. -/
def randElem (bits : Nat) : ℚ := ((bits % 2 ^ 24 : Nat) : ℚ) / 2 ^ 24

/-- `torch.rand(shape)`: a flat tensor of `shape.prod` elements drawn from the
bit stream `g`. -/
def torchRand (g : Nat → Nat) (shape : List Nat) : List ℚ :=
  (List.range shape.prod).map (fun i => randElem (g i))

/-- Casting one float to `uint8` as in `(np_array * 255).astype(np.uint8)`
followed by `PIL.Image.fromarray`; values outside the representable range
`[0, 256)` are a format error, modelled as `none`. -/
def floatToUint8 (x : ℚ) : Option Nat :=
  if 0 ≤ x * 255 ∧ x * 255 < 256 then some (Int.toNat ⌊x * 255⌋) else none

/-- Converting a whole tensor to an 8-bit pixel array; fails if any element
fails to convert. -/
def toPixelBytes : List ℚ → Option (List Nat)
  | [] => some []
  | x :: xs =>
    match floatToUint8 x, toPixelBytes xs with
    | some b, some bs => some (b :: bs)
    | _, _ => none

/-- The static configuration dictionary built by `save_model_config`. -/
structure Config where
  yolo_path : String
  yolo_input_size : List Nat
  yolo_classes : List String
  clip_vision_path : String
  clip_vision_input_size : List Nat
  clip_text_path : String
  clip_text_vocab_size : Nat
  clipseg_path : String
  clipseg_input_size : List Nat
  yolo_alias : List (String × List String)
  clip_labels : List String
  challenge_alias : List (String × String)
  thresholds : List (String × ℚ)
deriving DecidableEq

/-- The literal configuration document of `save_model_config`
(src/convert_models.py lines 158-234). -/
def modelConfig : Config where
  yolo_path := "models/yolo11m-seg.onnx"
  yolo_input_size := [640, 640]
  yolo_classes :=
    ["person", "bicycle", "car", "motorcycle", "airplane", "bus", "train",
     "truck", "boat", "traffic light", "fire hydrant", "stop sign",
     "parking meter", "bench", "bird", "cat", "dog", "horse", "sheep", "cow",
     "elephant", "bear", "zebra", "giraffe", "backpack", "umbrella",
     "handbag", "tie", "suitcase", "frisbee", "skis", "snowboard",
     "sports ball", "kite", "baseball bat", "baseball glove", "skateboard",
     "surfboard", "tennis racket", "bottle", "wine glass", "cup", "fork",
     "knife", "spoon", "bowl", "banana", "apple", "sandwich", "orange",
     "broccoli", "carrot", "hot dog", "pizza", "donut", "cake", "chair",
     "couch", "potted plant", "bed", "dining table", "toilet", "tv",
     "laptop", "mouse", "remote", "keyboard", "cell phone", "microwave",
     "oven", "toaster", "sink", "refrigerator", "book", "clock", "vase",
     "scissors", "teddy bear", "hair drier", "toothbrush"]
  clip_vision_path := "models/clip_vision_encoder.onnx"
  clip_vision_input_size := [224, 224]
  clip_text_path := "models/clip_text_encoder.onnx"
  clip_text_vocab_size := 49408
  clipseg_path := "models/clipseg.onnx"
  clipseg_input_size := [352, 352]
  yolo_alias :=
    [("bicycle", ["bicycle"]),
     ("car", ["car", "truck"]),
     ("bus", ["bus", "truck"]),
     ("motorcycle", ["motorcycle"]),
     ("boat", ["boat"]),
     ("fire hydrant", ["fire hydrant", "parking meter"]),
     ("parking meter", ["fire hydrant", "parking meter"]),
     ("traffic light", ["traffic light"])]
  clip_labels :=
    ["bicycle", "boat", "bus", "car", "fire hydrant", "motorcycle",
     "traffic light", "bridge", "chimney", "crosswalk", "mountain",
     "palm tree", "stair", "tractor", "taxi"]
  challenge_alias :=
    [("car", "car"), ("cars", "car"), ("vehicles", "car"),
     ("taxis", "taxi"), ("taxi", "taxi"),
     ("bus", "bus"), ("buses", "bus"),
     ("motorcycle", "motorcycle"), ("motorcycles", "motorcycle"),
     ("bicycle", "bicycle"), ("bicycles", "bicycle"),
     ("boats", "boat"), ("boat", "boat"),
     ("tractors", "tractor"), ("tractor", "tractor"),
     ("stairs", "stair"), ("stair", "stair"),
     ("palm trees", "palm tree"), ("palm tree", "palm tree"),
     ("fire hydrants", "fire hydrant"), ("a fire hydrant", "fire hydrant"),
     ("fire hydrant", "fire hydrant"),
     ("parking meters", "parking meter"), ("parking meter", "parking meter"),
     ("crosswalks", "crosswalk"), ("crosswalk", "crosswalk"),
     ("traffic lights", "traffic light"), ("traffic light", "traffic light"),
     ("bridges", "bridge"), ("bridge", "bridge"),
     ("mountains or hills", "mountain"), ("mountain or hill", "mountain"),
     ("mountain", "mountain"), ("mountains", "mountain"),
     ("hills", "mountain"), ("hill", "mountain"),
     ("chimney", "chimney"), ("chimneys", "chimney")]
  thresholds :=
    [("bridge", 0.7285372716747225),
     ("chimney", 0.7918647485226393),
     ("crosswalk", 0.8879293048381806),
     ("mountain", 0.5551278884819476),
     ("palm tree", 0.8093279512040317),
     ("stair", 0.9112694561691023),
     ("tractor", 0.9385110986077537),
     ("taxi", 0.7967491503432393)]

/-- Which library calls raise an exception during a run, and whether the
YOLO exporter left its ONNX file on disk.  An exception flag models a raise
anywhere inside the corresponding `try` block, before any output file of
that block is written. -/
structure Env where
  check_loaded_raises : Bool
  yolo_raises : Bool
  yolo_onnx_exists : Bool
  clip_vit_raises : Bool
  clipseg_raises : Bool
deriving DecidableEq

/-- Observable state of a run: files written (in order), console log lines
(in order, interpolated exception text omitted), and the content of the
written configuration file if any. -/
structure World where
  files : List String
  log : List String
  config_written : Option Config
deriving DecidableEq

/-- The fresh state at program start. -/
def World.init : World := ⟨[], [], none⟩

/-- `ModelConverter.convert_yolo_model` (lines 127-154): everything inside
`try` is caught; on success the file `yolo11m-seg.onnx` is renamed into the
output directory; if the file is missing after export a message is logged. -/
def convert_yolo_model (env : Env) (w : World) : World :=
  let w := { w with log := w.log ++ ["Converting YOLO model..."] }
  if env.yolo_raises then
    { w with log := w.log ++ ["✗ Failed to convert YOLO model"] }
  else if env.yolo_onnx_exists then
    { w with
      files := w.files ++ ["browser-extension/models/yolo11m-seg.onnx"],
      log := w.log ++ ["✓ YOLO model converted successfully"] }
  else
    { w with log := w.log ++ ["✗ YOLO ONNX file not found after export"] }

/-- `ModelConverter.convert_clip_vit_model` (lines 32-86): exports the text
encoder then the vision encoder; any exception in the `try` block is caught
and logged. -/
def convert_clip_vit_model (env : Env) (w : World) : World :=
  let w := { w with log := w.log ++ ["Converting CLIP ViT model..."] }
  if env.clip_vit_raises then
    { w with log := w.log ++ ["✗ Failed to convert CLIP ViT model"] }
  else
    { w with
      files := w.files ++
        ["browser-extension/models/clip_text_encoder.onnx",
         "browser-extension/models/clip_vision_encoder.onnx"],
      log := w.log ++ ["✓ CLIP ViT models converted successfully"] }

/-- `ModelConverter.convert_clipseg_model` (lines 88-125). -/
def convert_clipseg_model (env : Env) (w : World) : World :=
  let w := { w with log := w.log ++ ["Converting CLIPSeg model..."] }
  if env.clipseg_raises then
    { w with log := w.log ++ ["✗ Failed to convert CLIPSeg model"] }
  else
    { w with
      files := w.files ++ ["browser-extension/models/clipseg.onnx"],
      log := w.log ++ ["✓ CLIPSeg model converted successfully"] }

/-- `ModelConverter.save_model_config` (lines 156-240): writes the literal
`modelConfig` to `config.json` in the output directory. -/
def save_model_config (w : World) : World :=
  { w with
    files := w.files ++ ["browser-extension/models/config.json"],
    config_written := some modelConfig,
    log := w.log ++ ["✓ Model configuration saved"] }

/-- `ModelConverter.convert_all` (lines 242-266): checks that the detector
models load (returning early on exception), then runs the three exports and
finally writes the configuration. -/
def convert_all (env : Env) (w : World) : World :=
  let w := { w with
    log := w.log ++ ["Starting model conversion...", "Loading PyTorch models..."] }
  if env.check_loaded_raises then
    { w with log := w.log ++ ["✗ Failed to load PyTorch models"] }
  else
    let w := { w with log := w.log ++ ["✓ PyTorch models loaded"] }
    let w := convert_yolo_model env w
    let w := convert_clip_vit_model env w
    let w := convert_clipseg_model env w
    let w := save_model_config w
    { w with log := w.log ++ ["Model conversion completed!"] }

/-- An environment in which every library call succeeds and the YOLO export
leaves its file in place. -/
def successEnv : Env := ⟨false, false, true, false, false⟩

/-- A file name with the inference-graph (ONNX) extension, checked on the
character list so it evaluates by kernel reduction. -/
def isGraphFile (s : String) : Bool := (".onnx").data.isSuffixOf s.data

/-- A path under the fixed output directory browser-extension/models. -/
def inOutputDir (s : String) : Bool :=
  ("browser-extension/models/").data.isPrefixOf s.data

/-- The invariant asserted by claim C4: every category name appearing as an
alias value or threshold key is in the `clip_labels` vocabulary. -/
def configLabelInvariant (c : Config) : Prop :=
  (∀ p ∈ c.yolo_alias, ∀ v ∈ p.2, v ∈ c.clip_labels) ∧
  (∀ p ∈ c.challenge_alias, p.2 ∈ c.clip_labels) ∧
  (∀ p ∈ c.thresholds, p.1 ∈ c.clip_labels)

/-- Every element produced by the uniform sampler lies in `[0, 1)`. -/
theorem randElem_nonneg_lt_one (bits : Nat) :
    0 ≤ randElem bits ∧ randElem bits < 1 := by
  unfold randElem
  constructor
  · positivity
  · rw [div_lt_one (by positivity)]
    exact_mod_cast Nat.mod_lt bits (by norm_num)

/-- C1: every placeholder tensor generated for export tracing has all of its
elements in `[0, 1]`; in particular this holds for the `(1,3,224,224)` CLIP
ViT placeholder and the `(1,3,352,352)` CLIPSeg placeholder, whatever the
underlying random bits. -/
theorem placeholder_elements_in_unit_interval (g : Nat → Nat)
    (shape : List Nat) (x : ℚ) (hx : x ∈ torchRand g shape) :
    0 ≤ x ∧ x ≤ 1 := by
  unfold torchRand at hx
  obtain ⟨i, -, rfl⟩ := List.mem_map.mp hx
  obtain ⟨h0, h1⟩ := randElem_nonneg_lt_one (g i)
  exact ⟨h0, le_of_lt h1⟩

/-- Witness for C1: the first element of the `(1,3,224,224)` placeholder
drawn from the all-zero bit stream. -/
theorem placeholder_elements_in_unit_interval_witness :
    (0 : ℚ) ∈ torchRand (fun _ => 0) [1, 3, 224, 224] ∧
      0 ≤ (0 : ℚ) ∧ (0 : ℚ) ≤ 1 := by
  have hm : (0 : ℚ) ∈ torchRand (fun _ => 0) [1, 3, 224, 224] := by
    unfold torchRand
    refine List.mem_map.mpr ⟨0, List.mem_range.mpr (by norm_num [List.prod]), ?_⟩
    norm_num [randElem]
  exact ⟨hm, placeholder_elements_in_unit_interval (fun _ => 0) _ 0 hm⟩

/-- C2: once the initial model-loading check succeeds, an exception in any
single export is caught and logged, and all three exports and the config
emission still execute — no export failure aborts the pipeline. -/
theorem export_failures_isolated (env : Env) (w : World)
    (h : env.check_loaded_raises = false) :
    (env.yolo_raises = true →
      "✗ Failed to convert YOLO model" ∈ (convert_all env w).log) ∧
    (env.clip_vit_raises = true →
      "✗ Failed to convert CLIP ViT model" ∈ (convert_all env w).log) ∧
    (env.clipseg_raises = true →
      "✗ Failed to convert CLIPSeg model" ∈ (convert_all env w).log) ∧
    "Converting YOLO model..." ∈ (convert_all env w).log ∧
    "Converting CLIP ViT model..." ∈ (convert_all env w).log ∧
    "Converting CLIPSeg model..." ∈ (convert_all env w).log ∧
    (convert_all env w).config_written = some modelConfig := by
  obtain ⟨c, y, yf, cv, cs⟩ := env
  simp only at h
  subst h
  cases y <;> cases yf <;> cases cv <;> cases cs <;>
    simp [convert_all, convert_yolo_model, convert_clip_vit_model,
      convert_clipseg_model, save_model_config]

/-- Witness for C2: all three exports raise, yet every export is attempted,
each failure is logged, and the config is still written. -/
theorem export_failures_isolated_witness :
    ((true = true →
      "✗ Failed to convert YOLO model" ∈
        (convert_all ⟨false, true, false, true, true⟩ World.init).log) ∧
    (true = true →
      "✗ Failed to convert CLIP ViT model" ∈
        (convert_all ⟨false, true, false, true, true⟩ World.init).log) ∧
    (true = true →
      "✗ Failed to convert CLIPSeg model" ∈
        (convert_all ⟨false, true, false, true, true⟩ World.init).log) ∧
    "Converting YOLO model..." ∈
      (convert_all ⟨false, true, false, true, true⟩ World.init).log ∧
    "Converting CLIP ViT model..." ∈
      (convert_all ⟨false, true, false, true, true⟩ World.init).log ∧
    "Converting CLIPSeg model..." ∈
      (convert_all ⟨false, true, false, true, true⟩ World.init).log ∧
    (convert_all ⟨false, true, false, true, true⟩ World.init).config_written =
      some modelConfig) :=
  export_failures_isolated ⟨false, true, false, true, true⟩ World.init rfl

/-- C3 fails as stated: on an all-success run the program writes FOUR
inference-graph (.onnx) files, not three.  The run from a fresh state under
`successEnv` yields a file list whose `.onnx` entries number four. -/
theorem three_graph_files_counterexample :
    ¬ (((convert_all successEnv World.init).files.filter isGraphFile).length
        = 3) := by
  decide

/-- C3 amended: on a run in which all exports succeed, the program writes
exactly four inference-graph files with fixed names plus one JSON
configuration file, all under the fixed output directory
browser-extension/models. -/
theorem all_success_output_files :
    (convert_all successEnv World.init).files =
      ["browser-extension/models/yolo11m-seg.onnx",
       "browser-extension/models/clip_text_encoder.onnx",
       "browser-extension/models/clip_vision_encoder.onnx",
       "browser-extension/models/clipseg.onnx",
       "browser-extension/models/config.json"] ∧
    ((convert_all successEnv World.init).files.filter isGraphFile).length
      = 4 ∧
    ∀ f ∈ (convert_all successEnv World.init).files, inOutputDir f = true := by
  refine ⟨by decide, by decide, by decide⟩

/-- C5: whatever the export outcomes, once the loading check succeeds the
configuration is written as a single file after all export-produced files,
with the static content `modelConfig`. -/
theorem config_written_last_regardless (env : Env) (w : World)
    (h : env.check_loaded_raises = false) :
    (convert_all env w).files.getLast? =
      some "browser-extension/models/config.json" ∧
    (convert_all env w).config_written = some modelConfig := by
  obtain ⟨c, y, yf, cv, cs⟩ := env
  simp only at h
  subst h
  cases y <;> cases yf <;> cases cv <;> cases cs <;>
    simp [convert_all, convert_yolo_model, convert_clip_vit_model,
      convert_clipseg_model, save_model_config, List.getLast?_append_cons]

/-- Witness for C5: with every export failing, the config file is still the
last file written and carries the static content. -/
theorem config_written_last_regardless_witness :
    (convert_all ⟨false, true, false, true, true⟩ World.init).files.getLast? =
      some "browser-extension/models/config.json" ∧
    (convert_all ⟨false, true, false, true, true⟩ World.init).config_written =
      some modelConfig :=
  config_written_last_regardless ⟨false, true, false, true, true⟩ World.init rfl

/-- C6: if `detection_models.check_loaded()` raises, `convert_all` returns
immediately: no file is written, no config is emitted, and the log shows
only the startup messages and the loading failure. -/
theorem check_loaded_failure_aborts (env : Env) (w : World)
    (h : env.check_loaded_raises = true) :
    convert_all env w =
      { w with log := w.log ++
          ["Starting model conversion...", "Loading PyTorch models...",
           "✗ Failed to load PyTorch models"] } := by
  simp [convert_all, h]

/-- Witness for C6: a run from the fresh state whose loading check raises. -/
theorem check_loaded_failure_aborts_witness :
    convert_all ⟨true, false, false, false, false⟩ World.init =
      { World.init with log := World.init.log ++
          ["Starting model conversion...", "Loading PyTorch models...",
           "✗ Failed to load PyTorch models"] } :=
  check_loaded_failure_aborts ⟨true, false, false, false, false⟩ World.init rfl

/-- C4 fails as stated: the yolo_alias entry for car maps to the value
truck, and truck is not in the clip_labels vocabulary (parking meter is a
second such value); so not every alias value is a recognized category. -/
theorem alias_values_in_vocabulary_counterexample :
    ¬ configLabelInvariant modelConfig := by
  intro h
  exact absurd (h.1 ("car", ["car", "truck"]) (by decide) "truck" (by decide))
    (by decide)

/-- C4 amended: every key of the threshold table is in clip_labels, and
every alias value (yolo_alias list elements and challenge_alias values) is
in clip_labels except the two detector-only names truck and parking meter. -/
theorem alias_values_in_vocabulary_amended :
    (∀ p ∈ modelConfig.thresholds, p.1 ∈ modelConfig.clip_labels) ∧
    (∀ p ∈ modelConfig.yolo_alias, ∀ v ∈ p.2,
      v ∈ modelConfig.clip_labels ∨ v = "truck" ∨ v = "parking meter") ∧
    (∀ p ∈ modelConfig.challenge_alias,
      p.2 ∈ modelConfig.clip_labels ∨ p.2 = "parking meter") := by
  refine ⟨by decide, by decide, by decide⟩

/-- C7: the config emitter is deterministic — any two invocations of
`save_model_config`, from any two states, write identical configuration
contents. -/
theorem save_model_config_deterministic (w₁ w₂ : World) :
    (save_model_config w₁).config_written =
      (save_model_config w₂).config_written := rfl

/-- C8: every value of the threshold table is in the interval `[0, 1]`. -/
theorem thresholds_in_unit_interval (p : String × ℚ)
    (hp : p ∈ modelConfig.thresholds) : 0 ≤ p.2 ∧ p.2 ≤ 1 := by
  fin_cases hp <;> norm_num [modelConfig]

/-- Witness for C8: the bridge threshold. -/
theorem thresholds_in_unit_interval_witness :
    ("bridge", (0.7285372716747225 : ℚ)) ∈ modelConfig.thresholds ∧
    0 ≤ (("bridge", (0.7285372716747225 : ℚ)) : String × ℚ).2 ∧
      (("bridge", (0.7285372716747225 : ℚ)) : String × ℚ).2 ≤ 1 := by
  have hm : ("bridge", (0.7285372716747225 : ℚ)) ∈ modelConfig.thresholds :=
    List.mem_cons_self _ _
  exact ⟨hm, thresholds_in_unit_interval _ hm⟩

/-- C9: when the YOLO export returns without raising but the expected ONNX
file is missing, the condition is logged and the pipeline still runs the
remaining exports and writes the config. -/
theorem yolo_file_missing_nonfatal (env : Env) (w : World)
    (hc : env.check_loaded_raises = false) (hr : env.yolo_raises = false)
    (hf : env.yolo_onnx_exists = false) :
    "✗ YOLO ONNX file not found after export" ∈ (convert_all env w).log ∧
    "Converting CLIP ViT model..." ∈ (convert_all env w).log ∧
    "Converting CLIPSeg model..." ∈ (convert_all env w).log ∧
    (convert_all env w).config_written = some modelConfig := by
  obtain ⟨c, y, yf, cv, cs⟩ := env
  simp only at hc hr hf
  subst hc; subst hr; subst hf
  cases cv <;> cases cs <;>
    simp [convert_all, convert_yolo_model, convert_clip_vit_model,
      convert_clipseg_model, save_model_config]

/-- Witness for C9: a run whose YOLO export leaves no file behind. -/
theorem yolo_file_missing_nonfatal_witness :
    "✗ YOLO ONNX file not found after export" ∈
      (convert_all ⟨false, false, false, false, false⟩ World.init).log ∧
    "Converting CLIP ViT model..." ∈
      (convert_all ⟨false, false, false, false, false⟩ World.init).log ∧
    "Converting CLIPSeg model..." ∈
      (convert_all ⟨false, false, false, false, false⟩ World.init).log ∧
    (convert_all ⟨false, false, false, false, false⟩ World.init).config_written
      = some modelConfig :=
  yolo_file_missing_nonfatal ⟨false, false, false, false, false⟩ World.init
    rfl rfl rfl

/-- C10: any tensor with all elements in `[0, 1]` converts to 8-bit pixels
without a format error, and every resulting byte is at most 255. -/
theorem pixel_conversion_in_byte_range (t : List ℚ)
    (h : ∀ x ∈ t, 0 ≤ x ∧ x ≤ 1) :
    ∃ bs, toPixelBytes t = some bs ∧ ∀ b ∈ bs, b ≤ 255 := by
  induction t with
  | nil => exact ⟨[], rfl, by simp⟩
  | cons x xs ih =>
    obtain ⟨hx0, hx1⟩ := h x (List.mem_cons_self x xs)
    obtain ⟨bs, hbs, hle⟩ := ih (fun y hy => h y (List.mem_cons_of_mem x hy))
    have hnn : 0 ≤ x * 255 := by positivity
    have hub : x * 255 ≤ 255 := by nlinarith
    have hcond : 0 ≤ x * 255 ∧ x * 255 < 256 :=
      ⟨hnn, lt_of_le_of_lt hub (by norm_num)⟩
    refine ⟨Int.toNat ⌊x * 255⌋ :: bs, ?_, ?_⟩
    · simp [toPixelBytes, floatToUint8, hcond, hbs]
    · intro b hb
      rcases List.mem_cons.mp hb with rfl | hb'
      · have hfl : ⌊x * 255⌋ ≤ 255 := by
          have h255 : x * 255 ≤ ((255 : ℤ) : ℚ) := by push_cast; exact hub
          have := Int.floor_le_floor h255
          simpa using this
        exact Int.toNat_le.mpr hfl
      · exact hle b hb'

/-- Witness for C10: the three-element tensor 0, 1/2, 1. -/
theorem pixel_conversion_in_byte_range_witness :
    (∀ x ∈ [(0 : ℚ), 1/2, 1], 0 ≤ x ∧ x ≤ 1) ∧
    ∃ bs, toPixelBytes [(0 : ℚ), 1/2, 1] = some bs ∧ ∀ b ∈ bs, b ≤ 255 :=
  ⟨by intro x hx; fin_cases hx <;> norm_num,
    pixel_conversion_in_byte_range [(0 : ℚ), 1/2, 1]
      (by intro x hx; fin_cases hx <;> norm_num)⟩

end ConvertModels
